import Mathlib

/-
Verification of the symbolic-parameter translation layer of nmatrix
(src/ext/nmatrix/math/util.h): the functions converting ruby symbols into
CBLAS enum arguments and LAPACK character arguments.

The Ruby values these functions receive are modelled by the inductive type
`RValue`; the Ruby C API function `rb_to_id` (which converts a Symbol or a
String to an interned ID and raises a TypeError for every other value) is
modelled by `rb_to_id` returning `Except RubyError String`.  `rb_raise`
aborts the caller, so each translator is embedded as a function into
`Except RubyError code`, where `throw` models the raise; the C statement
after an unconditional `rb_raise` is dead and has no counterpart in the
embedding.
-/

/-- Ruby VALUEs as they can reach the translators: the immediates false,
true and nil, symbols, strings, and numbers. -/
inductive RValue where
  | rfalse
  | rtrue
  | rnil
  | sym (s : String)
  | str (s : String)
  | num (n : Int)
deriving DecidableEq

/-- Ruby exceptions raised by this layer: `rb_eArgError` from the
translators themselves and `TypeError` from `rb_to_id`. -/
inductive RubyError where
  | argError (msg : String)
  | typeError (msg : String)
deriving DecidableEq

deriving instance DecidableEq for Except

/-- Ruby `inspect` rendering used in the TypeError message of `rb_to_id`. -/
def rvalueInspect : RValue → String
  | .rfalse => "false"
  | .rtrue => "true"
  | .rnil => "nil"
  | .sym s => ":" ++ s
  | .str s => "\"" ++ s ++ "\""
  | .num n => toString n

/-- The Ruby C API `rb_to_id`: a Symbol or a String converts to its
interned ID; any other value raises a TypeError. -/
def rb_to_id : RValue → Except RubyError String
  | .sym s => .ok s
  | .str s => .ok s
  | v => .error (.typeError (rvalueInspect v ++ " is not a symbol nor a string"))

/-- enum CBLAS_TRANSPOSE. -/
inductive CBLAS_TRANSPOSE where
  | CblasNoTrans
  | CblasTrans
  | CblasConjTrans
deriving DecidableEq

/-- enum CBLAS_SIDE. -/
inductive CBLAS_SIDE where
  | CblasLeft
  | CblasRight
deriving DecidableEq

/-- enum CBLAS_UPLO. -/
inductive CBLAS_UPLO where
  | CblasUpper
  | CblasLower
deriving DecidableEq

/-- enum CBLAS_DIAG. -/
inductive CBLAS_DIAG where
  | CblasUnit
  | CblasNonUnit
deriving DecidableEq

/-- enum CBLAS_ORDER. -/
inductive CBLAS_ORDER where
  | CblasRowMajor
  | CblasColMajor
deriving DecidableEq

/-- Numeric magnitudes of CBLAS_ORDER, per the source comment on
blas_order_sym: 101 for row-major, 102 for column-major. -/
def CBLAS_ORDER.toNat : CBLAS_ORDER → Nat
  | .CblasRowMajor => 101
  | .CblasColMajor => 102

/-- Modelled from the spec: the interned ID `nm_rb_no_transpose` is defined
by repository initialization code outside src/; per the spec's transpose
vocabulary it interns the spelling "no_transpose". -/
def nm_rb_no_transpose : String := "no_transpose"

/-- Modelled from the spec: the interned ID `nm_rb_transpose`, the spelling
"transpose" of the transpose vocabulary. -/
def nm_rb_transpose : String := "transpose"

/-- Modelled from the spec: the interned ID `nm_rb_complex_conjugate`, the
spelling "complex_conjugate" of the transpose vocabulary. -/
def nm_rb_complex_conjugate : String := "complex_conjugate"

/-- Modelled from the spec: the interned ID `nm_rb_left` of the side
vocabulary. -/
def nm_rb_left : String := "left"

/-- Modelled from the spec: the interned ID `nm_rb_right` of the side
vocabulary. -/
def nm_rb_right : String := "right"

/-- Modelled from the spec: the interned ID `nm_rb_upper` of the
triangular-region vocabulary. -/
def nm_rb_upper : String := "upper"

/-- Modelled from the spec: the interned ID `nm_rb_lower` of the
triangular-region vocabulary. -/
def nm_rb_lower : String := "lower"

/-- Modelled from the spec: the interned ID `nm_rb_unit` of the
unit-diagonal vocabulary. -/
def nm_rb_unit : String := "unit"

/-- blas_transpose_sym: `op == Qfalse` is tested before `rb_to_id` is
called (C short-circuit), so false returns CblasNoTrans without symbol
conversion; every other value goes through `rb_to_id`. -/
def blas_transpose_sym (op : RValue) : Except RubyError CBLAS_TRANSPOSE :=
  if op = .rfalse then .ok .CblasNoTrans
  else match rb_to_id op with
  | .error e => .error e
  | .ok id =>
    if id = nm_rb_no_transpose then .ok .CblasNoTrans
    else if id = nm_rb_transpose then .ok .CblasTrans
    else if id = nm_rb_complex_conjugate then .ok .CblasConjTrans
    else .error (.argError "Expected false, :transpose, or :complex_conjugate")

/-- lapacke_transpose_sym: same structure as blas_transpose_sym but
producing LAPACKE characters. -/
def lapacke_transpose_sym (op : RValue) : Except RubyError Char :=
  if op = .rfalse then .ok 'N'
  else match rb_to_id op with
  | .error e => .error e
  | .ok id =>
    if id = nm_rb_no_transpose then .ok 'N'
    else if id = nm_rb_transpose then .ok 'T'
    else if id = nm_rb_complex_conjugate then .ok 'C'
    else .error (.argError "Expected false, :transpose, or :complex_conjugate")

/-- blas_side_sym: `rb_to_id` runs first, then the ID is compared against
left and right. -/
def blas_side_sym (op : RValue) : Except RubyError CBLAS_SIDE :=
  match rb_to_id op with
  | .error e => .error e
  | .ok op_id =>
    if op_id = nm_rb_left then .ok .CblasLeft
    else if op_id = nm_rb_right then .ok .CblasRight
    else .error (.argError "Expected :left or :right for side argument")

/-- blas_uplo_sym. -/
def blas_uplo_sym (op : RValue) : Except RubyError CBLAS_UPLO :=
  match rb_to_id op with
  | .error e => .error e
  | .ok op_id =>
    if op_id = nm_rb_upper then .ok .CblasUpper
    else if op_id = nm_rb_lower then .ok .CblasLower
    else .error (.argError "Expected :upper or :lower for uplo argument")

/-- lapacke_uplo_sym. -/
def lapacke_uplo_sym (op : RValue) : Except RubyError Char :=
  match rb_to_id op with
  | .error e => .error e
  | .ok op_id =>
    if op_id = nm_rb_upper then .ok 'U'
    else if op_id = nm_rb_lower then .ok 'L'
    else .error (.argError "Expected :upper or :lower for uplo argument")

/-- blas_diag_sym: the C condition is
`rb_to_id(op) == nm_rb_unit || op == Qtrue`, so `rb_to_id` is evaluated
before `op` is compared with Qtrue; a raise inside `rb_to_id` is therefore
the outcome for every non-symbol-convertible input, Qtrue included. -/
def blas_diag_sym (op : RValue) : Except RubyError CBLAS_DIAG :=
  match rb_to_id op with
  | .error e => .error e
  | .ok id =>
    if id = nm_rb_unit ∨ op = .rtrue then .ok .CblasUnit
    else .ok .CblasNonUnit

/-- blas_order_sym: interns its spellings inline via rb_intern. -/
def blas_order_sym (op : RValue) : Except RubyError CBLAS_ORDER :=
  match rb_to_id op with
  | .error e => .error e
  | .ok id =>
    if id = "row" ∨ id = "row_major" then .ok .CblasRowMajor
    else if id = "col" ∨ id = "col_major" ∨ id = "column" ∨ id = "column_major" then
      .ok .CblasColMajor
    else .error (.argError "Expected :row or :col for order argument")

/-- lapack_svd_job_sym: the trailing C statement `return 'a';` stands after
an unconditional rb_raise and is unreachable; the embedding's throw models
the raise, so the statement has no counterpart here. -/
def lapack_svd_job_sym (op : RValue) : Except RubyError Char :=
  match rb_to_id op with
  | .error e => .error e
  | .ok id =>
    if id = "all" ∨ id = "a" then .ok 'A'
    else if id = "return" ∨ id = "s" then .ok 'S'
    else if id = "overwrite" ∨ id = "o" then .ok 'O'
    else if id = "none" ∨ id = "n" then .ok 'N'
    else .error (.argError "Expected :all, :return, :overwrite, :none (or :a, :s, :o, :n, respectively)")

/-- lapack_evd_job_sym: `op == Qfalse || op == Qnil` short-circuits before
`rb_to_id` is called; 'V' is the default for every recognized symbol other
than "n". -/
def lapack_evd_job_sym (op : RValue) : Except RubyError Char :=
  if op = .rfalse ∨ op = .rnil then .ok 'N'
  else match rb_to_id op with
  | .error e => .error e
  | .ok id =>
    if id = "n" then .ok 'N' else .ok 'V'

/-- True exactly when the computation raised an ArgumentError. -/
def isArgError {α : Type} : Except RubyError α → Bool
  | .error (.argError _) => true
  | _ => false

/-- True exactly when the computation raised a TypeError. -/
def isTypeError {α : Type} : Except RubyError α → Bool
  | .error (.typeError _) => true
  | _ => false

/-- Claim C1 (amended): the transpose vocabulary maps as stated — false and
:no_transpose to CblasNoTrans and 'N', :transpose to CblasTrans and 'T',
:complex_conjugate to CblasConjTrans and 'C' — and every SYMBOL outside the
vocabulary fails with the ArgumentError naming the permitted values, in
both translators.  (The original claim said every input outside the
vocabulary fails with an ArgumentError; a non-symbol-convertible input such
as nil instead fails with a TypeError inside rb_to_id.) -/
theorem claim_C1 (s : String)
    (h : s ∉ ["no_transpose", "transpose", "complex_conjugate"]) :
    blas_transpose_sym RValue.rfalse = Except.ok CBLAS_TRANSPOSE.CblasNoTrans ∧
    blas_transpose_sym (RValue.sym "no_transpose") = Except.ok CBLAS_TRANSPOSE.CblasNoTrans ∧
    blas_transpose_sym (RValue.sym "transpose") = Except.ok CBLAS_TRANSPOSE.CblasTrans ∧
    blas_transpose_sym (RValue.sym "complex_conjugate") = Except.ok CBLAS_TRANSPOSE.CblasConjTrans ∧
    lapacke_transpose_sym RValue.rfalse = Except.ok 'N' ∧
    lapacke_transpose_sym (RValue.sym "no_transpose") = Except.ok 'N' ∧
    lapacke_transpose_sym (RValue.sym "transpose") = Except.ok 'T' ∧
    lapacke_transpose_sym (RValue.sym "complex_conjugate") = Except.ok 'C' ∧
    blas_transpose_sym (RValue.sym s) =
      Except.error (RubyError.argError "Expected false, :transpose, or :complex_conjugate") ∧
    lapacke_transpose_sym (RValue.sym s) =
      Except.error (RubyError.argError "Expected false, :transpose, or :complex_conjugate") := by
  simp only [List.mem_cons, List.not_mem_nil, or_false, not_or] at h
  obtain ⟨h1, h2, h3⟩ := h
  refine ⟨by decide, by decide, by decide, by decide, by decide, by decide, by decide, by decide,
    ?_, ?_⟩
  · simp [blas_transpose_sym, rb_to_id, nm_rb_no_transpose, nm_rb_transpose,
      nm_rb_complex_conjugate, h1, h2, h3]
  · simp [lapacke_transpose_sym, rb_to_id, nm_rb_no_transpose, nm_rb_transpose,
      nm_rb_complex_conjugate, h1, h2, h3]

/-- Witness for claim C1 at the out-of-vocabulary symbol :conjugate. -/
theorem claim_C1_wit :
    blas_transpose_sym RValue.rfalse = Except.ok CBLAS_TRANSPOSE.CblasNoTrans ∧
    blas_transpose_sym (RValue.sym "no_transpose") = Except.ok CBLAS_TRANSPOSE.CblasNoTrans ∧
    blas_transpose_sym (RValue.sym "transpose") = Except.ok CBLAS_TRANSPOSE.CblasTrans ∧
    blas_transpose_sym (RValue.sym "complex_conjugate") = Except.ok CBLAS_TRANSPOSE.CblasConjTrans ∧
    lapacke_transpose_sym RValue.rfalse = Except.ok 'N' ∧
    lapacke_transpose_sym (RValue.sym "no_transpose") = Except.ok 'N' ∧
    lapacke_transpose_sym (RValue.sym "transpose") = Except.ok 'T' ∧
    lapacke_transpose_sym (RValue.sym "complex_conjugate") = Except.ok 'C' ∧
    blas_transpose_sym (RValue.sym "conjugate") =
      Except.error (RubyError.argError "Expected false, :transpose, or :complex_conjugate") ∧
    lapacke_transpose_sym (RValue.sym "conjugate") =
      Except.error (RubyError.argError "Expected false, :transpose, or :complex_conjugate") :=
  claim_C1 "conjugate" (by decide)

/-- Counterexample to claim C1 as stated: nil is an input outside the
transpose vocabulary, yet neither translator raises an ArgumentError on it;
both raise a TypeError from rb_to_id. -/
theorem claim_C1_cex :
    isArgError (blas_transpose_sym RValue.rnil) = false ∧
    isTypeError (blas_transpose_sym RValue.rnil) = true ∧
    isArgError (lapacke_transpose_sym RValue.rnil) = false ∧
    isTypeError (lapacke_transpose_sym RValue.rnil) = true := by decide

/-- Claim C2: evaluation of blas_diag_sym at the inputs the claim names.
The claim (and the source's own comment, which documents true and false as
accepted) says true yields CblasUnit and false yields CblasNonUnit with no
error; but the code evaluates rb_to_id(op) before comparing op with Qtrue,
so both booleans raise a TypeError and the `op == Qtrue` test is dead.
Symbols behave as documented: :unit yields CblasUnit, any other symbol
yields CblasNonUnit. -/
theorem claim_C2 :
    blas_diag_sym RValue.rtrue =
      Except.error (RubyError.typeError "true is not a symbol nor a string") ∧
    blas_diag_sym RValue.rfalse =
      Except.error (RubyError.typeError "false is not a symbol nor a string") ∧
    blas_diag_sym RValue.rnil =
      Except.error (RubyError.typeError "nil is not a symbol nor a string") ∧
    blas_diag_sym (RValue.sym "unit") = Except.ok CBLAS_DIAG.CblasUnit ∧
    blas_diag_sym (RValue.sym "nonunit") = Except.ok CBLAS_DIAG.CblasNonUnit := by decide

/-- Claim C6 (amended): in both transpose translators, boolean false yields
the same result as the token :no_transpose with no error; absent (nil)
input, however, is not a recognized synonym — it raises a TypeError inside
rb_to_id. -/
theorem claim_C6 :
    blas_transpose_sym RValue.rfalse = Except.ok CBLAS_TRANSPOSE.CblasNoTrans ∧
    blas_transpose_sym (RValue.sym "no_transpose") = Except.ok CBLAS_TRANSPOSE.CblasNoTrans ∧
    lapacke_transpose_sym RValue.rfalse = Except.ok 'N' ∧
    lapacke_transpose_sym (RValue.sym "no_transpose") = Except.ok 'N' ∧
    isTypeError (blas_transpose_sym RValue.rnil) = true ∧
    isTypeError (lapacke_transpose_sym RValue.rnil) = true := by decide

/-- Counterexample to claim C6 as stated: nil does not yield CblasNoTrans
from the enum translator, nor 'N' from the character translator. -/
theorem claim_C6_cex :
    blas_transpose_sym RValue.rnil ≠ Except.ok CBLAS_TRANSPOSE.CblasNoTrans ∧
    lapacke_transpose_sym RValue.rnil ≠ Except.ok 'N' := by decide

/-- Claim C3: the SVD job translator maps the eight spellings
{all, a, return, s, overwrite, o, none, n} to {A, A, S, S, O, O, N, N}
respectively, and every other symbol — the wrong-case :ALL included, as the
witness shows — raises the ArgumentError enumerating all eight accepted
spellings. -/
theorem claim_C3 (t : String)
    (h : t ∉ ["all", "a", "return", "s", "overwrite", "o", "none", "n"]) :
    lapack_svd_job_sym (RValue.sym "all") = Except.ok 'A' ∧
    lapack_svd_job_sym (RValue.sym "a") = Except.ok 'A' ∧
    lapack_svd_job_sym (RValue.sym "return") = Except.ok 'S' ∧
    lapack_svd_job_sym (RValue.sym "s") = Except.ok 'S' ∧
    lapack_svd_job_sym (RValue.sym "overwrite") = Except.ok 'O' ∧
    lapack_svd_job_sym (RValue.sym "o") = Except.ok 'O' ∧
    lapack_svd_job_sym (RValue.sym "none") = Except.ok 'N' ∧
    lapack_svd_job_sym (RValue.sym "n") = Except.ok 'N' ∧
    lapack_svd_job_sym (RValue.sym t) = Except.error (RubyError.argError
      "Expected :all, :return, :overwrite, :none (or :a, :s, :o, :n, respectively)") := by
  simp only [List.mem_cons, List.not_mem_nil, or_false, not_or] at h
  obtain ⟨h1, h2, h3, h4, h5, h6, h7, h8⟩ := h
  refine ⟨by decide, by decide, by decide, by decide, by decide, by decide, by decide, by decide,
    ?_⟩
  simp [lapack_svd_job_sym, rb_to_id, h1, h2, h3, h4, h5, h6, h7, h8]

/-- Witness for claim C3 at the wrong-case symbol :ALL, which the claim
singles out as rejected. -/
theorem claim_C3_wit :
    lapack_svd_job_sym (RValue.sym "all") = Except.ok 'A' ∧
    lapack_svd_job_sym (RValue.sym "a") = Except.ok 'A' ∧
    lapack_svd_job_sym (RValue.sym "return") = Except.ok 'S' ∧
    lapack_svd_job_sym (RValue.sym "s") = Except.ok 'S' ∧
    lapack_svd_job_sym (RValue.sym "overwrite") = Except.ok 'O' ∧
    lapack_svd_job_sym (RValue.sym "o") = Except.ok 'O' ∧
    lapack_svd_job_sym (RValue.sym "none") = Except.ok 'N' ∧
    lapack_svd_job_sym (RValue.sym "n") = Except.ok 'N' ∧
    lapack_svd_job_sym (RValue.sym "ALL") = Except.error (RubyError.argError
      "Expected :all, :return, :overwrite, :none (or :a, :s, :o, :n, respectively)") :=
  claim_C3 "ALL" (by decide)

/-- Claim C4: the storage-order translator accepts exactly the row spellings
{row, row_major} (CblasRowMajor) and the column spellings
{col, col_major, column, column_major} (CblasColMajor); the two results are
distinct codes; and every other symbol raises the ArgumentError naming
:row and :col. -/
theorem claim_C4 (t : String)
    (h : t ∉ ["row", "row_major", "col", "col_major", "column", "column_major"]) :
    blas_order_sym (RValue.sym "row") = Except.ok CBLAS_ORDER.CblasRowMajor ∧
    blas_order_sym (RValue.sym "row_major") = Except.ok CBLAS_ORDER.CblasRowMajor ∧
    blas_order_sym (RValue.sym "col") = Except.ok CBLAS_ORDER.CblasColMajor ∧
    blas_order_sym (RValue.sym "col_major") = Except.ok CBLAS_ORDER.CblasColMajor ∧
    blas_order_sym (RValue.sym "column") = Except.ok CBLAS_ORDER.CblasColMajor ∧
    blas_order_sym (RValue.sym "column_major") = Except.ok CBLAS_ORDER.CblasColMajor ∧
    CBLAS_ORDER.CblasRowMajor ≠ CBLAS_ORDER.CblasColMajor ∧
    CBLAS_ORDER.CblasRowMajor.toNat ≠ CBLAS_ORDER.CblasColMajor.toNat ∧
    blas_order_sym (RValue.sym t) =
      Except.error (RubyError.argError "Expected :row or :col for order argument") := by
  simp only [List.mem_cons, List.not_mem_nil, or_false, not_or] at h
  obtain ⟨h1, h2, h3, h4, h5, h6⟩ := h
  refine ⟨by decide, by decide, by decide, by decide, by decide, by decide, by decide, by decide,
    ?_⟩
  simp [blas_order_sym, rb_to_id, h1, h2, h3, h4, h5, h6]

/-- Witness for claim C4 at the out-of-vocabulary symbol :diagonal. -/
theorem claim_C4_wit :
    blas_order_sym (RValue.sym "row") = Except.ok CBLAS_ORDER.CblasRowMajor ∧
    blas_order_sym (RValue.sym "row_major") = Except.ok CBLAS_ORDER.CblasRowMajor ∧
    blas_order_sym (RValue.sym "col") = Except.ok CBLAS_ORDER.CblasColMajor ∧
    blas_order_sym (RValue.sym "col_major") = Except.ok CBLAS_ORDER.CblasColMajor ∧
    blas_order_sym (RValue.sym "column") = Except.ok CBLAS_ORDER.CblasColMajor ∧
    blas_order_sym (RValue.sym "column_major") = Except.ok CBLAS_ORDER.CblasColMajor ∧
    CBLAS_ORDER.CblasRowMajor ≠ CBLAS_ORDER.CblasColMajor ∧
    CBLAS_ORDER.CblasRowMajor.toNat ≠ CBLAS_ORDER.CblasColMajor.toNat ∧
    blas_order_sym (RValue.sym "diagonal") =
      Except.error (RubyError.argError "Expected :row or :col for order argument") :=
  claim_C4 "diagonal" (by decide)

/-- Claim C5 (amended): the eigen-decomposition job translator maps nil,
false and the symbol :n to 'N', and every other SYMBOL — :yes and :compute
included — to 'V', without error.  (The original claim said it is total and
never raises on EVERY input; a non-symbol-convertible input such as true
instead raises a TypeError inside rb_to_id.) -/
theorem claim_C5 (t : String) (h : t ≠ "n") :
    lapack_evd_job_sym RValue.rnil = Except.ok 'N' ∧
    lapack_evd_job_sym RValue.rfalse = Except.ok 'N' ∧
    lapack_evd_job_sym (RValue.sym "n") = Except.ok 'N' ∧
    lapack_evd_job_sym (RValue.sym t) = Except.ok 'V' := by
  refine ⟨by decide, by decide, by decide, ?_⟩
  simp [lapack_evd_job_sym, rb_to_id, h]

/-- Witness for claim C5 at the unrecognized symbol :yes. -/
theorem claim_C5_wit :
    lapack_evd_job_sym RValue.rnil = Except.ok 'N' ∧
    lapack_evd_job_sym RValue.rfalse = Except.ok 'N' ∧
    lapack_evd_job_sym (RValue.sym "n") = Except.ok 'N' ∧
    lapack_evd_job_sym (RValue.sym "yes") = Except.ok 'V' :=
  claim_C5 "yes" (by decide)

/-- Counterexample to claim C5 as stated: boolean true is an input other
than nil, false and :n, yet it does not yield 'V' — it raises a TypeError
from rb_to_id, so the translator is not total over all inputs. -/
theorem claim_C5_cex :
    lapack_evd_job_sym RValue.rtrue ≠ Except.ok 'V' ∧
    isTypeError (lapack_evd_job_sym RValue.rtrue) = true := by decide

/-- Claim C7: the triangular-region translators map :upper to CblasUpper
and 'U', :lower to CblasLower and 'L', and every other symbol —
:diagonal in the witness — raises the ArgumentError naming :upper and
:lower, in both translators. -/
theorem claim_C7 (t : String) (h : t ∉ ["upper", "lower"]) :
    blas_uplo_sym (RValue.sym "upper") = Except.ok CBLAS_UPLO.CblasUpper ∧
    blas_uplo_sym (RValue.sym "lower") = Except.ok CBLAS_UPLO.CblasLower ∧
    lapacke_uplo_sym (RValue.sym "upper") = Except.ok 'U' ∧
    lapacke_uplo_sym (RValue.sym "lower") = Except.ok 'L' ∧
    blas_uplo_sym (RValue.sym t) =
      Except.error (RubyError.argError "Expected :upper or :lower for uplo argument") ∧
    lapacke_uplo_sym (RValue.sym t) =
      Except.error (RubyError.argError "Expected :upper or :lower for uplo argument") := by
  simp only [List.mem_cons, List.not_mem_nil, or_false, not_or] at h
  obtain ⟨h1, h2⟩ := h
  refine ⟨by decide, by decide, by decide, by decide, ?_, ?_⟩
  · simp [blas_uplo_sym, rb_to_id, nm_rb_upper, nm_rb_lower, h1, h2]
  · simp [lapacke_uplo_sym, rb_to_id, nm_rb_upper, nm_rb_lower, h1, h2]

/-- Witness for claim C7 at the out-of-vocabulary symbol :diagonal. -/
theorem claim_C7_wit :
    blas_uplo_sym (RValue.sym "upper") = Except.ok CBLAS_UPLO.CblasUpper ∧
    blas_uplo_sym (RValue.sym "lower") = Except.ok CBLAS_UPLO.CblasLower ∧
    lapacke_uplo_sym (RValue.sym "upper") = Except.ok 'U' ∧
    lapacke_uplo_sym (RValue.sym "lower") = Except.ok 'L' ∧
    blas_uplo_sym (RValue.sym "diagonal") =
      Except.error (RubyError.argError "Expected :upper or :lower for uplo argument") ∧
    lapacke_uplo_sym (RValue.sym "diagonal") =
      Except.error (RubyError.argError "Expected :upper or :lower for uplo argument") :=
  claim_C7 "diagonal" (by decide)

/-- Claim C8 (amended): the side translator maps :left to CblasLeft and
:right to CblasRight, every other SYMBOL — :top in the witness — raises the
ArgumentError naming :left and :right, and boolean false is not accepted:
it fails, but with a TypeError from rb_to_id rather than with the
translator's ArgumentError (the original claim said false fails with the
ArgumentError naming left and right). -/
theorem claim_C8 (t : String) (h : t ∉ ["left", "right"]) :
    blas_side_sym (RValue.sym "left") = Except.ok CBLAS_SIDE.CblasLeft ∧
    blas_side_sym (RValue.sym "right") = Except.ok CBLAS_SIDE.CblasRight ∧
    blas_side_sym (RValue.sym t) =
      Except.error (RubyError.argError "Expected :left or :right for side argument") ∧
    isTypeError (blas_side_sym RValue.rfalse) = true := by
  simp only [List.mem_cons, List.not_mem_nil, or_false, not_or] at h
  obtain ⟨h1, h2⟩ := h
  refine ⟨by decide, by decide, ?_, by decide⟩
  simp [blas_side_sym, rb_to_id, nm_rb_left, nm_rb_right, h1, h2]

/-- Witness for claim C8 at the out-of-vocabulary symbol :top. -/
theorem claim_C8_wit :
    blas_side_sym (RValue.sym "left") = Except.ok CBLAS_SIDE.CblasLeft ∧
    blas_side_sym (RValue.sym "right") = Except.ok CBLAS_SIDE.CblasRight ∧
    blas_side_sym (RValue.sym "top") =
      Except.error (RubyError.argError "Expected :left or :right for side argument") ∧
    isTypeError (blas_side_sym RValue.rfalse) = true :=
  claim_C8 "top" (by decide)

/-- Counterexample to claim C8 as stated: boolean false does fail, but not
with an ArgumentError — the failure is a TypeError raised inside
rb_to_id. -/
theorem claim_C8_cex :
    isArgError (blas_side_sym RValue.rfalse) = false ∧
    isTypeError (blas_side_sym RValue.rfalse) = true := by decide

/-- Claim C9: whenever the SVD job translator returns normally its result
is one of the four characters A, S, O, N — in particular the lowercase 'a'
of the source's trailing `return 'a';` never escapes, because on every path
reaching that statement the rb_raise has already aborted the call (in the
embedding, the throw short-circuits, so the dead statement has no
counterpart). -/
theorem claim_C9 (op : RValue) (c : Char) (h : lapack_svd_job_sym op = Except.ok c) :
    (c = 'A' ∨ c = 'S' ∨ c = 'O' ∨ c = 'N') ∧ c ≠ 'a' := by
  cases op <;> simp only [lapack_svd_job_sym, rb_to_id] at h <;>
    repeat' split at h
  all_goals first
    | exact Except.noConfusion h
    | (injection h with h; subst h; decide)

/-- Witness for claim C9 at the symbol :all, whose translation succeeds
with 'A'. -/
theorem claim_C9_wit :
    (('A' : Char) = 'A' ∨ ('A' : Char) = 'S' ∨ ('A' : Char) = 'O' ∨ ('A' : Char) = 'N') ∧
    ('A' : Char) ≠ 'a' :=
  claim_C9 (RValue.sym "all") 'A' (by decide)

/-- Claim C10: in the side, triangular-region and unit-diagonal
translators, rb_to_id runs before any comparison against the vocabulary or
against Qtrue, so whenever symbol conversion fails its TypeError is the
translator's outcome — the translator's own ArgumentError or default
branch is never reached, and the error produced is always a TypeError. -/
theorem claim_C10 (op : RValue) (e : RubyError) (h : rb_to_id op = Except.error e) :
    blas_side_sym op = Except.error e ∧
    blas_uplo_sym op = Except.error e ∧
    blas_diag_sym op = Except.error e ∧
    ∃ m, e = RubyError.typeError m := by
  cases op <;> simp only [rb_to_id, Except.error.injEq] at h
  case sym s => exact Except.noConfusion h
  case str s => exact Except.noConfusion h
  all_goals subst h
  all_goals exact ⟨rfl, rfl, rfl, _, rfl⟩

/-- Witness for claim C10 at boolean true, on which rb_to_id fails. -/
theorem claim_C10_wit :
    blas_side_sym RValue.rtrue =
      Except.error (RubyError.typeError "true is not a symbol nor a string") ∧
    blas_uplo_sym RValue.rtrue =
      Except.error (RubyError.typeError "true is not a symbol nor a string") ∧
    blas_diag_sym RValue.rtrue =
      Except.error (RubyError.typeError "true is not a symbol nor a string") ∧
    ∃ m, RubyError.typeError "true is not a symbol nor a string" = RubyError.typeError m :=
  claim_C10 RValue.rtrue _ (by decide)
